import Mathlib

/-!
Verification development for the CSV-to-PostgreSQL loader
(`src/utils/load_data.py`, class `DataLoader`).

The embedding is a direct shallow translation of the source:

* `Config` holds the constructor arguments of `DataLoader.__init__` together
  with the four environment-derived connection parameters (each an
  `Option String`, `none` modelling an unset variable).
* `DataFrame` models the pandas frame produced by `pd.read_csv(..., dtype=str)`:
  named columns and rows of optional text cells (`none` = missing/NaN).
* `validate_csv` mirrors `DataLoader.validate_csv`.
* External effects of one attempt of `DataLoader.load_csv_to_postgres`
  (reading the file, writing to the database) are an `AttemptEnv`; a whole
  run's effects are a function from attempt number to `AttemptEnv`.
  `attemptStep` is the body of the `try:` block, `loadGo` is the retry loop,
  instrumented with the number of attempts made, sleeps taken and file reads
  performed (`LoadResult`).
* `DataLoader.run` submits one task per configured file (`tasks`,
  `submittedResults`) and folds the outcomes, in the completion order chosen
  by `as_completed`, into the two report lists (`collectReport`).  Completion
  order is modelled as an arbitrary permutation of the submitted outcomes.
-/

/-- Constructor arguments of `DataLoader.__init__` plus the connection
parameters read from the environment (`os.getenv` returns `None` or a
string; `none` models an unset variable).  `retry_delay` is kept abstract
as a natural number of time units; sleeps are counted as events. -/
structure Config where
  db_host : Option String
  db_user : Option String
  db_password : Option String
  db_name : Option String
  csv_directory : String
  files_to_load : List String
  if_exists : String
  max_workers : Nat
  max_retries : Nat
  retry_delay : Nat
deriving DecidableEq, Repr

/-- Python truthiness of an optional string: `None` and the empty string are
falsy.  `_create_db_engine` tests `all([host, user, password, name])`. -/
def truthy : Option String → Bool
  | none => false
  | some s => !(s == "")

/-- The guard of `DataLoader._create_db_engine`:
`all([self.db_host, self.db_user, self.db_password, self.db_name])`. -/
def credsOk (cfg : Config) : Bool :=
  truthy cfg.db_host && truthy cfg.db_user && truthy cfg.db_password && truthy cfg.db_name

/-- The message of the `ValueError` raised by `_create_db_engine`. -/
def credsMsg : String := "Database credentials are not fully set in environment variables."

/-- The pandas DataFrame obtained from `pd.read_csv(file_path, dtype=str)`:
named columns, rows of optional text cells (`none` = missing value). -/
structure DataFrame where
  columns : List String
  rows : List (List (Option String))
deriving DecidableEq, Repr

/-- pandas `df.empty`: true when any axis has length zero. -/
def DataFrame.empty (df : DataFrame) : Bool :=
  df.rows.isEmpty || df.columns.isEmpty

/-- pandas `df.isnull().all(axis=1).any()`: some row has every cell missing.
In `validate_csv` this only triggers a logged warning. -/
def hasAllNullRow (df : DataFrame) : Bool :=
  df.rows.any (fun r => r.all (fun cell => cell.isNone))

/-- `DataLoader.validate_csv`.  The checks, in source order:
`df.empty`; the all-null-row check (`hasAllNullRow`), which only logs a
warning and does not change the result; `df.columns.duplicated().any()`
(some column name occurs more than once, i.e. the column list is not
`Nodup`); `len(df.columns) == 0`. -/
def validate_csv (df : DataFrame) : Bool :=
  if df.empty then false
  else if ¬ df.columns.Nodup then false
  else if df.columns.length = 0 then false
  else true

/-- Result of `pd.read_csv` on one attempt: raises
`pd.errors.EmptyDataError`, returns a frame, or raises some other
exception carrying a message. -/
inductive ReadResult where
  | emptyData : ReadResult
  | ok : DataFrame → ReadResult
  | err : String → ReadResult
deriving DecidableEq, Repr

/-- External effects of one attempt: what `pd.read_csv` does, and whether
`df.to_sql` raises (`some msg`) or succeeds (`none`). -/
structure AttemptEnv where
  read : ReadResult
  write : Option String
deriving DecidableEq, Repr

/-- Control-flow outcome of the `try:` block of one attempt:
a `return` statement, the `pd.errors.EmptyDataError` handler, or the
generic `except Exception as e` handler with `str(e)`. -/
inductive AttemptOut where
  | returned : Bool → String → AttemptOut
  | raisedEmptyData : AttemptOut
  | raisedExc : String → AttemptOut
deriving DecidableEq, Repr

/-- The body of the `try:` block of `DataLoader.load_csv_to_postgres`, for
one attempt: create the engine (raises `ValueError credsMsg` when a
connection parameter is falsy), read the CSV, validate, write.  The second
component records whether `pd.read_csv` was invoked on this attempt. -/
def attemptStep (cfg : Config) (env : AttemptEnv) : AttemptOut × Bool :=
  if credsOk cfg then
    match env.read with
    | .emptyData => (.raisedEmptyData, true)
    | .err m => (.raisedExc m, true)
    | .ok df =>
      if validate_csv df then
        match env.write with
        | none => (.returned true "", true)
        | some m => (.raisedExc m, true)
      else (.returned false "Validation failed", true)
  else (.raisedExc credsMsg, false)

/-- The `(file_path, success, error_message)` triple returned by
`load_csv_to_postgres` (the spec's LoadOutcome). -/
structure LoadOutcome where
  source_path : String
  succeeded : Bool
  error_message : String
deriving DecidableEq, Repr

/-- Instrumented result of one call to `load_csv_to_postgres`: the returned
outcome plus the number of loop iterations run (`attempts`), of
`time.sleep(self.retry_delay)` calls (`sleeps`) and of `pd.read_csv`
invocations (`reads`). -/
structure LoadResult where
  outcome : LoadOutcome
  attempts : Nat
  sleeps : Nat
  reads : Nat
deriving DecidableEq, Repr

/-- The retry loop `for attempt in range(1, self.max_retries + 1)` of
`load_csv_to_postgres`.  Arguments: current attempt number, remaining loop
iterations, current `last_error`.  On `EmptyDataError` the loop breaks and
falls through to the final `return (file_path, False, last_error)` with
`last_error = "Empty or malformed CSV"`; on a generic exception the loop
sleeps and retries while `attempt < max_retries`, otherwise falls through
to the final return carrying the last message. -/
def loadGo (cfg : Config) (beh : Nat → AttemptEnv) (fp : String) :
    Nat → Nat → String → LoadResult
  | _, 0, lastError => ⟨⟨fp, false, lastError⟩, 0, 0, 0⟩
  | attempt, rem + 1, _ =>
    match attemptStep cfg (beh attempt) with
    | (.returned ok msg, rd) => ⟨⟨fp, ok, msg⟩, 1, 0, cond rd 1 0⟩
    | (.raisedEmptyData, rd) => ⟨⟨fp, false, "Empty or malformed CSV"⟩, 1, 0, cond rd 1 0⟩
    | (.raisedExc m, rd) =>
      if rem = 0 then ⟨⟨fp, false, m⟩, 1, 0, cond rd 1 0⟩
      else
        let r := loadGo cfg beh fp (attempt + 1) rem m
        ⟨r.outcome, r.attempts + 1, r.sleeps + 1, r.reads + cond rd 1 0⟩

/-- `DataLoader.load_csv_to_postgres(file_path, table_name)` under external
behaviour `beh`: the loop starts at attempt 1 with `last_error = ""`. -/
def load_csv_to_postgres (cfg : Config) (beh : Nat → AttemptEnv)
    (file_path table_name : String) : LoadResult :=
  loadGo cfg beh file_path 1 cfg.max_retries ""

/-- Index of the last occurrence of a character, counted from the front
(Python `str.rfind` returns this index or `-1`). -/
def lastIdxOf (c : Char) : List Char → Option Nat
  | [] => none
  | x :: xs =>
    match lastIdxOf c xs with
    | some i => some (i + 1)
    | none => if x = c then some 0 else none

/-- Python `p.rfind(c)`: index of the last occurrence, `-1` when absent. -/
def pyRfind (c : Char) (l : List Char) : Int :=
  match lastIdxOf c l with
  | some i => (i : Int)
  | none => -1

/-- `os.path.splitext(p)[0]` on POSIX, over the character list of `p`:
find the last `/` and the last `.`; when the dot comes later and some
character strictly between them differs from `.`, the root is everything
before the dot, otherwise the whole string (so `.csv` keeps its name). -/
def splitextRootL (p : List Char) : List Char :=
  if pyRfind '/' p < pyRfind '.' p then
    if ((p.drop (pyRfind '/' p + 1).toNat).take (pyRfind '.' p - (pyRfind '/' p + 1)).toNat).any
        (fun ch => !(ch == '.')) then
      p.take (pyRfind '.' p).toNat
    else p
  else p

/-- `os.path.splitext(name)[0]`, as used for the destination table name in
`DataLoader.run`. -/
def splitextRoot (s : String) : String := ⟨splitextRootL s.data⟩

/-- Modelled from the spec (claim wording, for comparison with
`splitextRoot`): "stripping the file's extension (the name up to the last
dot)". -/
def specStemUpToLastDot (s : String) : String :=
  match lastIdxOf '.' s.data with
  | some i => ⟨s.data.take i⟩
  | none => s

/-- `os.path.join(a, b)` on POSIX, two-argument case: `b.startswith('/')`
keeps only `b`; an empty or `/`-terminated `a` concatenates directly;
otherwise a `/` separator is inserted. -/
def osPathJoin (a b : String) : String :=
  if b.data.head? = some '/' then b
  else if a.data = [] ∨ a.data.getLast? = some '/' then a ++ b
  else a ++ "/" ++ b

/-- The spec's LoadTask: source path and destination table, as computed in
the submission loop of `DataLoader.run`. -/
structure LoadTask where
  source_path : String
  destination_table : String
deriving DecidableEq, Repr

/-- The submission loop of `DataLoader.run`: for each configured file name,
`file_path = os.path.join(self.csv_directory, file_name)` and
`table_name = os.path.splitext(file_name)[0]`. -/
def DataLoader.tasks (cfg : Config) : List LoadTask :=
  cfg.files_to_load.map (fun name =>
    ⟨osPathJoin cfg.csv_directory name, splitextRoot name⟩)

/-- One `executor.submit(self.load_csv_to_postgres, ...)` per task, in
submission order; `beh i` is the external behaviour seen by task `i`. -/
def submitGo (cfg : Config) (beh : Nat → Nat → AttemptEnv) :
    Nat → List LoadTask → List LoadResult
  | _, [] => []
  | i, t :: ts =>
    load_csv_to_postgres cfg (beh i) t.source_path t.destination_table ::
      submitGo cfg beh (i + 1) ts

/-- The instrumented results of all submitted tasks, in submission order. -/
def submittedResults (cfg : Config) (beh : Nat → Nat → AttemptEnv) : List LoadResult :=
  submitGo cfg beh 0 (DataLoader.tasks cfg)

/-- The outcomes of all submitted tasks, in submission order. -/
def submittedOutcomes (cfg : Config) (beh : Nat → Nat → AttemptEnv) : List LoadOutcome :=
  (submittedResults cfg beh).map LoadResult.outcome

/-- The spec's RunReport: the `successful_files` and `failed_files` lists of
the `DataLoader` instance. -/
structure RunReport where
  successful : List String
  failed : List (String × String)
deriving DecidableEq, Repr

/-- The body of the `for future in as_completed(futures)` loop of
`DataLoader.run`: classify one outcome into the two report lists. -/
def collectStep (rep : RunReport) (o : LoadOutcome) : RunReport :=
  if o.succeeded then { rep with successful := rep.successful ++ [o.source_path] }
  else { rep with failed := rep.failed ++ [(o.source_path, o.error_message)] }

/-- The collection loop of `DataLoader.run`, starting from the empty lists
set up by `DataLoader.__init__`.  `completed` is the sequence of outcomes
in the completion order delivered by `as_completed`; theorems about the
run quantify over every permutation of the submitted outcomes. -/
def collectReport (completed : List LoadOutcome) : RunReport :=
  completed.foldl collectStep ⟨[], []⟩

/-- The source paths mentioned by a report, successes first. -/
def reportPaths (rep : RunReport) : List String :=
  rep.successful ++ rep.failed.map Prod.fst

/-- Concrete configuration for claim C1: `DB_HOST` unset, one file. -/
def cfgC1 : Config :=
  ⟨none, some "u", some "p", some "d", "data", ["a.csv"], "replace", 4, 3, 2⟩

/-- Behaviour for claim C1: every attempt of every task would read a clean
frame and write successfully, were a connection available. -/
def behC1 : Nat → Nat → AttemptEnv := fun _ _ => ⟨.ok ⟨["c"], [[some "v"]]⟩, none⟩

/-- Concrete configuration for claim C2: two files. -/
def cfgC2 : Config :=
  ⟨some "h", some "u", some "p", some "d", "data", ["a.csv", "b.csv"], "replace", 2, 3, 2⟩

/-- Behaviour for claim C2: the first task succeeds, the second hits a
parse failure. -/
def behC2 : Nat → Nat → AttemptEnv := fun i _ =>
  if i = 0 then ⟨.ok ⟨["c"], [[some "v"]]⟩, none⟩ else ⟨.emptyData, none⟩

/-- Concrete configuration for claim C3. -/
def cfgC3 : Config :=
  ⟨some "h", some "u", some "p", some "d", "data", ["b.csv"], "replace", 4, 3, 2⟩

/-- Behaviour for claim C3: `pd.read_csv` raises `EmptyDataError`. -/
def behC3 : Nat → AttemptEnv := fun _ => ⟨.emptyData, none⟩

/-- Concrete configuration for claim C4. -/
def cfgC4 : Config :=
  ⟨some "h", some "u", some "p", some "d", "data", ["d.csv"], "replace", 4, 3, 2⟩

/-- Behaviour for claim C4: the frame read has a duplicated column name. -/
def behC4 : Nat → AttemptEnv := fun _ => ⟨.ok ⟨["a", "a"], [[some "1", some "2"]]⟩, none⟩

/-- Concrete configuration for claim C5. -/
def cfgC5 : Config :=
  ⟨some "h", some "u", some "p", some "d", "data", ["c.csv"], "replace", 4, 3, 2⟩

/-- Behaviour for claim C5: every attempt fails with a transient error. -/
def behC5 : Nat → AttemptEnv := fun _ => ⟨.err "connection refused", none⟩

/-- Concrete configuration for claim C6's counterexample. -/
def cfgC6 : Config :=
  ⟨some "h", some "u", some "p", some "d", "data", ["f.csv"], "replace", 4, 3, 2⟩

/-- Behaviour for claim C6's counterexample: `df.to_sql` raises an
exception whose text is empty on every attempt. -/
def behC6 : Nat → AttemptEnv := fun _ => ⟨.ok ⟨["c"], [[some "v"]]⟩, some ""⟩

/-- Concrete configuration for claim C6's witness. -/
def cfgC6w : Config :=
  ⟨some "h", some "u", some "p", some "d", "data", ["g.csv"], "replace", 4, 3, 2⟩

/-- Behaviour for claim C6's witness: a nonempty transient error text. -/
def behC6w : Nat → AttemptEnv := fun _ => ⟨.err "timeout", none⟩

/-- Concrete configuration for claim C7: two files. -/
def cfgC7 : Config :=
  ⟨some "h", some "u", some "p", some "d", "data", ["x.csv", "y.csv"], "replace", 2, 3, 2⟩

/-- Behaviour for claim C7: every attempt of every task fails. -/
def behC7 : Nat → Nat → AttemptEnv := fun _ _ => ⟨.err "disk error", none⟩

/-- Concrete configuration for claim C10: two files sharing a stem. -/
def cfgC10 : Config :=
  ⟨some "h", some "u", some "p", some "d", "data", ["ab.csv", "ab.txt"], "replace", 4, 3, 2⟩

/-- With a falsy connection parameter, every attempt raises the
`ValueError` of `_create_db_engine` before touching the file. -/
theorem attemptStep_no_creds (cfg : Config) (env : AttemptEnv)
    (hc : credsOk cfg = false) :
    attemptStep cfg env = (.raisedExc credsMsg, false) := by
  simp [attemptStep, hc]

/-- The `try:` block only ever executes `return` with the pair
`(True, "")` or the pair `(False, "Validation failed")`. -/
theorem attemptStep_returned (cfg : Config) (env : AttemptEnv) (b : Bool) (m : String)
    (h : (attemptStep cfg env).1 = .returned b m) :
    (b = true ∧ m = "") ∨ (b = false ∧ m = "Validation failed") := by
  unfold attemptStep at h
  rcases hr : env.read with _ | df | msg <;>
    by_cases hc : credsOk cfg <;>
      simp [hc, hr] at h
  by_cases hv : validate_csv df <;> simp [hv] at h
  · rcases hw : env.write with _ | msg <;> simp [hw] at h
    · exact Or.inl ⟨h.1, h.2.symm⟩
  · exact Or.inr ⟨h.1, h.2.symm⟩

/-- The loop of `load_csv_to_postgres` always returns an outcome for the
file it was called on. -/
theorem loadGo_source_path (cfg : Config) (beh : Nat → AttemptEnv) (fp : String) :
    ∀ rem a last, (loadGo cfg beh fp a rem last).outcome.source_path = fp := by
  intro rem
  induction rem with
  | zero => intro a last; rfl
  | succ n ih =>
    intro a last
    rcases h : attemptStep cfg (beh a) with ⟨out, rd⟩
    rcases out with ⟨b, m⟩ | _ | m <;> simp [loadGo, h]
    split
    · rfl
    · exact ih (a + 1) m

/-- When every attempt raises a generic exception, the loop runs all of its
`rem` remaining iterations, sleeps between consecutive attempts, and falls
through to the final return carrying the last message. -/
theorem loadGo_exhaust (cfg : Config) (beh : Nat → AttemptEnv) (fp : String)
    (msgs : Nat → String)
    (h : ∀ k, (attemptStep cfg (beh k)).1 = .raisedExc (msgs k)) :
    ∀ rem a last, 1 ≤ rem →
      (loadGo cfg beh fp a rem last).outcome = ⟨fp, false, msgs (a + rem - 1)⟩ ∧
      (loadGo cfg beh fp a rem last).attempts = rem ∧
      (loadGo cfg beh fp a rem last).sleeps = rem - 1 := by
  intro rem
  induction rem with
  | zero => intro a last h0; omega
  | succ n ih =>
    intro a last _
    rcases hstep : attemptStep cfg (beh a) with ⟨out, rd⟩
    have hk := h a
    rw [hstep] at hk
    simp only at hk
    subst hk
    by_cases hn : n = 0
    · subst hn
      simp [loadGo, hstep]
    · have hrec := ih (a + 1) (msgs a) (by omega)
      have harg : a + 1 + n - 1 = a + (n + 1) - 1 := by omega
      rw [harg] at hrec
      simp [loadGo, hstep, hn]
      refine ⟨hrec.1, by omega, ?_⟩
      have := hrec.2.2
      omega

/-- When no attempt ever reaches `pd.read_csv`, the loop performs zero
reads. -/
theorem loadGo_reads_zero (cfg : Config) (beh : Nat → AttemptEnv) (fp : String)
    (h : ∀ k, (attemptStep cfg (beh k)).2 = false) :
    ∀ rem a last, (loadGo cfg beh fp a rem last).reads = 0 := by
  intro rem
  induction rem with
  | zero => intro a last; rfl
  | succ n ih =>
    intro a last
    rcases hstep : attemptStep cfg (beh a) with ⟨out, rd⟩
    have hk := h a
    rw [hstep] at hk
    simp only at hk
    subst hk
    rcases out with ⟨b, m⟩ | _ | m <;> simp [loadGo, hstep]
    split
    · rfl
    · simpa using ih (a + 1) m

/-- Loop invariant for the outcome-message discipline: as long as the
incoming `last_error` is nonempty or at least one iteration remains, and
every generic exception carries a nonempty message, the returned message
is empty exactly on success. -/
theorem loadGo_msg_iff (cfg : Config) (beh : Nat → AttemptEnv) (fp : String)
    (hm : ∀ k m, (attemptStep cfg (beh k)).1 = .raisedExc m → m ≠ "") :
    ∀ rem a last, (last ≠ "" ∨ 1 ≤ rem) →
      ((loadGo cfg beh fp a rem last).outcome.error_message = "" ↔
        (loadGo cfg beh fp a rem last).outcome.succeeded = true) := by
  intro rem
  induction rem with
  | zero =>
    intro a last hl
    rcases hl with hl | hl
    · simp [loadGo, hl]
    · omega
  | succ n ih =>
    intro a last _
    rcases hstep : attemptStep cfg (beh a) with ⟨out, rd⟩
    rcases out with ⟨b, m⟩ | _ | m
    · have := attemptStep_returned cfg (beh a) b m (by rw [hstep])
      rcases this with ⟨hb, hmv⟩ | ⟨hb, hmv⟩ <;> subst hb <;> subst hmv <;>
        simp [loadGo, hstep]
    · simp [loadGo, hstep]
    · have hne : m ≠ "" := hm a m (by rw [hstep])
      by_cases hn : n = 0
      · subst hn
        simp [loadGo, hstep, hne]
      · have hrec := ih (a + 1) m (Or.inl hne)
        simpa [loadGo, hstep, hn] using hrec

/-- Each submitted task's result carries that task's source path. -/
theorem submitGo_map_source_path (cfg : Config) (beh : Nat → Nat → AttemptEnv) :
    ∀ (i : Nat) (ts : List LoadTask),
      (submitGo cfg beh i ts).map (fun r => r.outcome.source_path) =
        ts.map LoadTask.source_path := by
  intro i ts
  induction ts generalizing i with
  | nil => rfl
  | cons t rest ih =>
    simp [submitGo, load_csv_to_postgres, loadGo_source_path, ih]

/-- The outcomes of a run mention exactly the task source paths, in
submission order. -/
theorem submittedOutcomes_map_source_path (cfg : Config) (beh : Nat → Nat → AttemptEnv) :
    (submittedOutcomes cfg beh).map LoadOutcome.source_path =
      (DataLoader.tasks cfg).map LoadTask.source_path := by
  unfold submittedOutcomes submittedResults
  rw [List.map_map]
  exact submitGo_map_source_path cfg beh 0 (DataLoader.tasks cfg)

/-- Folding outcomes into a report, from any starting report, appends each
outcome's source path to exactly one of the two lists: the combined path
collection is a permutation of the starting one followed by the outcomes'
paths. -/
theorem reportPaths_foldl (completed : List LoadOutcome) :
    ∀ rep : RunReport,
      List.Perm (reportPaths (completed.foldl collectStep rep))
        (reportPaths rep ++ completed.map LoadOutcome.source_path) := by
  induction completed with
  | nil => intro rep; simp
  | cons o rest ih =>
    intro rep
    have step := ih (collectStep rep o)
    refine (List.foldl_cons .. ▸ step).trans ?_
    rcases ho : o.succeeded
    · simp only [collectStep, ho, Bool.false_eq_true, if_false, reportPaths,
        List.map_append, List.map_cons, List.map_nil, List.append_assoc]
      simp [List.singleton_append]
    · simp only [collectStep, ho, if_true, reportPaths, List.append_assoc]
      simp [List.singleton_append]
      refine List.Perm.append_left _ ?_
      exact List.perm_middle.symm

/-- A character that does not occur in a list has no last occurrence. -/
theorem lastIdxOf_eq_none (c : Char) (l : List Char) (h : c ∉ l) :
    lastIdxOf c l = none := by
  induction l with
  | nil => rfl
  | cons x xs ih =>
    have hx : ¬x = c := fun he => h (he ▸ List.mem_cons_self x xs)
    simp [lastIdxOf, ih (fun hm => h (List.mem_cons_of_mem _ hm)), hx]

/-- The last occurrence of `c` in `stem ++ c :: ext` with `c ∉ ext` is at
index `stem.length`. -/
theorem lastIdxOf_append_self (c : Char) (stem ext : List Char) (h : c ∉ ext) :
    lastIdxOf c (stem ++ c :: ext) = some stem.length := by
  induction stem with
  | nil => simp [lastIdxOf, lastIdxOf_eq_none c ext h]
  | cons x xs ih => simp [lastIdxOf, ih]

/-- `os.path.splitext` on a name of the form `stem.ext`: when the stem has
some non-dot character (and neither part hides a further separator or
dot), the root is exactly the stem. -/
theorem splitextRootL_stem_ext (stem ext : List Char)
    (hs : '/' ∉ stem) (he : '/' ∉ ext) (hd : '.' ∉ ext)
    (hw : ∃ ch ∈ stem, ch ≠ '.') :
    splitextRootL (stem ++ '.' :: ext) = stem := by
  have hsep : pyRfind '/' (stem ++ '.' :: ext) = -1 := by
    unfold pyRfind
    rw [lastIdxOf_eq_none '/' _ (by simp [List.mem_append, hs, he])]
  have hdot : pyRfind '.' (stem ++ '.' :: ext) = (stem.length : Int) := by
    unfold pyRfind
    rw [lastIdxOf_append_self '.' stem ext hd]
  have hany : stem.any (fun ch => !(ch == '.')) = true := by
    rcases hw with ⟨ch, hmem, hne⟩
    exact List.any_eq_true.2 ⟨ch, hmem, by simp [hne]⟩
  have h0 : ((-1 : Int) + 1).toNat = 0 := rfl
  have h1 : ((stem.length : Int) - ((-1 : Int) + 1)).toNat = stem.length := by omega
  unfold splitextRootL
  rw [hsep, hdot, if_pos (by omega : (-1 : Int) < (stem.length : Int)), h0, h1,
    List.drop_zero, Int.toNat_natCast, List.take_left, if_pos hany]

/-- Shared backbone of the run-report claims: for every completion order
(permutation of the submitted outcomes), the paths collected into the two
report lists are a permutation of the submitted tasks' source paths. -/
theorem collectReport_paths_perm (cfg : Config) (beh : Nat → Nat → AttemptEnv)
    (completed : List LoadOutcome)
    (h : List.Perm completed (submittedOutcomes cfg beh)) :
    List.Perm (reportPaths (collectReport completed))
      ((DataLoader.tasks cfg).map LoadTask.source_path) := by
  have h1 := reportPaths_foldl completed ⟨[], []⟩
  have h2 : reportPaths (⟨[], []⟩ : RunReport) = [] := rfl
  rw [h2, List.nil_append] at h1
  refine h1.trans ?_
  have h3 := h.map LoadOutcome.source_path
  rw [submittedOutcomes_map_source_path] at h3
  exact h3

/-- Claim C3: when `pd.read_csv` raises `EmptyDataError` (a parse-level
failure: the source file is unreadable or contains no data), the load
aborts retries immediately — one attempt, no retry sleep — and returns a
failed outcome with message "Empty or malformed CSV". -/
theorem C3_parse_failure_aborts_retries (cfg : Config) (beh : Nat → AttemptEnv)
    (fp tbl : String) (hc : credsOk cfg = true) (hr : (beh 1).read = .emptyData)
    (hm : 1 ≤ cfg.max_retries) :
    load_csv_to_postgres cfg beh fp tbl =
      ⟨⟨fp, false, "Empty or malformed CSV"⟩, 1, 0, 1⟩ := by
  obtain ⟨n, hn⟩ : ∃ n, cfg.max_retries = n + 1 := ⟨cfg.max_retries - 1, by omega⟩
  have hstep : attemptStep cfg (beh 1) = (.raisedEmptyData, true) := by
    simp [attemptStep, hc, hr]
  unfold load_csv_to_postgres
  rw [hn]
  simp [loadGo, hstep]

theorem C3_witness :
    load_csv_to_postgres cfgC3 behC3 "data/b.csv" "b" =
      ⟨⟨"data/b.csv", false, "Empty or malformed CSV"⟩, 1, 0, 1⟩ :=
  C3_parse_failure_aborts_retries cfgC3 behC3 "data/b.csv" "b" (by decide) rfl (by decide)

/-- Claim C4: when the dataset read on the first attempt fails validation,
the load returns a failed outcome with message "Validation failed" on that
first attempt: exactly one attempt, no retry sleep. -/
theorem C4_validation_failure_single_attempt (cfg : Config) (beh : Nat → AttemptEnv)
    (fp tbl : String) (df : DataFrame) (hc : credsOk cfg = true)
    (hr : (beh 1).read = .ok df) (hv : validate_csv df = false)
    (hm : 1 ≤ cfg.max_retries) :
    load_csv_to_postgres cfg beh fp tbl =
      ⟨⟨fp, false, "Validation failed"⟩, 1, 0, 1⟩ := by
  obtain ⟨n, hn⟩ : ∃ n, cfg.max_retries = n + 1 := ⟨cfg.max_retries - 1, by omega⟩
  have hstep : attemptStep cfg (beh 1) = (.returned false "Validation failed", true) := by
    simp [attemptStep, hc, hr, hv]
  unfold load_csv_to_postgres
  rw [hn]
  simp [loadGo, hstep]

theorem C4_witness :
    load_csv_to_postgres cfgC4 behC4 "data/d.csv" "d" =
      ⟨⟨"data/d.csv", false, "Validation failed"⟩, 1, 0, 1⟩ :=
  C4_validation_failure_single_attempt cfgC4 behC4 "data/d.csv" "d"
    ⟨["a", "a"], [[some "1", some "2"]]⟩ (by decide) rfl (by decide) (by decide)

/-- Claim C5: when every attempt raises a retryable (generic) exception,
the load makes exactly `max_retries` attempts, sleeps the configured delay
between consecutive attempts (`max_retries - 1` times), and returns a
failed outcome carrying the last observed error message. -/
theorem C5_transient_exhausts_all_retries (cfg : Config) (beh : Nat → AttemptEnv)
    (fp tbl : String) (msgs : Nat → String)
    (h : ∀ k, (attemptStep cfg (beh k)).1 = .raisedExc (msgs k))
    (hm : 1 ≤ cfg.max_retries) :
    (load_csv_to_postgres cfg beh fp tbl).outcome =
        ⟨fp, false, msgs cfg.max_retries⟩ ∧
      (load_csv_to_postgres cfg beh fp tbl).attempts = cfg.max_retries ∧
      (load_csv_to_postgres cfg beh fp tbl).sleeps = cfg.max_retries - 1 := by
  have hx := loadGo_exhaust cfg beh fp msgs h cfg.max_retries 1 "" hm
  have harg : 1 + cfg.max_retries - 1 = cfg.max_retries := by omega
  rw [harg] at hx
  simpa [load_csv_to_postgres] using hx

theorem C5_witness :
    (load_csv_to_postgres cfgC5 behC5 "data/c.csv" "c").outcome =
        ⟨"data/c.csv", false, "connection refused"⟩ ∧
      (load_csv_to_postgres cfgC5 behC5 "data/c.csv" "c").attempts = 3 ∧
      (load_csv_to_postgres cfgC5 behC5 "data/c.csv" "c").sleeps = 2 :=
  C5_transient_exhausts_all_retries cfgC5 behC5 "data/c.csv" "c"
    (fun _ => "connection refused") (fun _ => rfl) (by decide)

/-- Claim C8: a dataset with zero rows, or zero columns, or a duplicated
column name fails validation. -/
theorem C8_validator_rejects_malformed (df : DataFrame)
    (h : df.rows = [] ∨ df.columns = [] ∨ ¬ df.columns.Nodup) :
    validate_csv df = false := by
  rcases h with h | h | h
  · simp [validate_csv, DataFrame.empty, h]
  · simp [validate_csv, DataFrame.empty, h]
  · by_cases he : df.empty <;> simp [validate_csv, he, h]

theorem C8_witness : validate_csv ⟨["a"], []⟩ = false :=
  C8_validator_rejects_malformed ⟨["a"], []⟩ (Or.inl rfl)

/-- Claim C9: a dataset with at least one row, at least one column and
pairwise-distinct column names passes validation — including when some
rows have every cell missing, which only triggers a logged warning. -/
theorem C9_validator_accepts_wellformed (df : DataFrame)
    (h1 : df.rows ≠ []) (h2 : df.columns ≠ []) (h3 : df.columns.Nodup) :
    validate_csv df = true := by
  have he : df.empty = false := by
    simp [DataFrame.empty, h1, h2]
  simp [validate_csv, he, h3, List.length_eq_zero, h2]

theorem C9_witness :
    hasAllNullRow ⟨["a", "b"], [[none, none], [some "x", some "y"]]⟩ = true ∧
      validate_csv ⟨["a", "b"], [[none, none], [some "x", some "y"]]⟩ = true :=
  ⟨by decide,
    C9_validator_accepts_wellformed ⟨["a", "b"], [[none, none], [some "x", some "y"]]⟩
      (by decide) (by decide) (by decide)⟩

/-- Claim C1 (counterexample): with the database host missing, the run does
NOT abort with a single pre-flight error.  The `ValueError` of
`_create_db_engine` is raised inside each attempt's `try:` block and
caught by the generic retry handler, so the single task makes all 3
attempts (sleeping twice) and the run completes normally, producing an
ordinary report that lists the file as failed. -/
theorem C1_counterexample :
    submittedResults cfgC1 behC1 = [⟨⟨"data/a.csv", false, credsMsg⟩, 3, 2, 0⟩] ∧
      collectReport (submittedOutcomes cfgC1 behC1) =
        ⟨[], [("data/a.csv", credsMsg)]⟩ := by
  decide

/-- Claim C1 (amended): with a missing (or empty) connection parameter,
every load attempt raises the `ValueError` of `_create_db_engine` before
reading any file (zero `pd.read_csv` calls); the exception is caught by
the generic retry handler, so every task makes `max_retries` attempts,
sleeping between consecutive ones, and returns a failed outcome carrying
the credentials message; the run completes instead of aborting. -/
theorem C1_missing_creds_fail_per_task (cfg : Config) (beh : Nat → Nat → AttemptEnv)
    (hc : credsOk cfg = false) (hm : 1 ≤ cfg.max_retries) :
    ∀ r ∈ submittedResults cfg beh,
      r.outcome.succeeded = false ∧ r.outcome.error_message = credsMsg ∧
        r.reads = 0 ∧ r.attempts = cfg.max_retries ∧
        r.sleeps = cfg.max_retries - 1 := by
  intro r hr
  have key : ∀ (i : Nat) (ts : List LoadTask), r ∈ submitGo cfg beh i ts →
      ∃ j fp tbl, r = load_csv_to_postgres cfg (beh j) fp tbl := by
    intro i ts
    induction ts generalizing i with
    | nil => intro hmem; simp [submitGo] at hmem
    | cons t rest ih =>
      intro hmem
      rcases List.mem_cons.mp hmem with hmem | hmem
      · exact ⟨i, t.source_path, t.destination_table, hmem⟩
      · exact ih (i + 1) hmem
  obtain ⟨j, fp, tbl, rfl⟩ := key 0 _ hr
  have hstep : ∀ k, (attemptStep cfg (beh j k)).1 = .raisedExc ((fun _ => credsMsg) k) :=
    fun k => by rw [attemptStep_no_creds cfg _ hc]
  have hx := loadGo_exhaust cfg (beh j) fp (fun _ => credsMsg) hstep cfg.max_retries 1 "" hm
  have hz := loadGo_reads_zero cfg (beh j) fp
    (fun k => by rw [attemptStep_no_creds cfg _ hc]) cfg.max_retries 1 ""
  simp only [load_csv_to_postgres]
  rw [hx.1]
  exact ⟨rfl, rfl, hz, hx.2.1, hx.2.2⟩

theorem C1_witness :
    (⟨⟨"data/a.csv", false, credsMsg⟩, 3, 2, 0⟩ : LoadResult).outcome.succeeded = false ∧
      (⟨⟨"data/a.csv", false, credsMsg⟩, 3, 2, 0⟩ : LoadResult).outcome.error_message = credsMsg ∧
      (⟨⟨"data/a.csv", false, credsMsg⟩, 3, 2, 0⟩ : LoadResult).reads = 0 ∧
      (⟨⟨"data/a.csv", false, credsMsg⟩, 3, 2, 0⟩ : LoadResult).attempts = 3 ∧
      (⟨⟨"data/a.csv", false, credsMsg⟩, 3, 2, 0⟩ : LoadResult).sleeps = 2 :=
  C1_missing_creds_fail_per_task cfgC1 behC1 (by decide) (by decide)
    ⟨⟨"data/a.csv", false, credsMsg⟩, 3, 2, 0⟩ (by decide)

/-- Claim C2: for every run and every completion order (any permutation of
the submitted outcomes), the successful and failed lists of the resulting
report partition the submitted tasks exactly — their combined source
paths are a permutation of the task paths, so no task is missing, none is
duplicated, and none lands in both lists; the report, built from the
empty lists set up by `__init__`, holds only this run's outcomes. -/
theorem C2_report_partitions_tasks (cfg : Config) (beh : Nat → Nat → AttemptEnv)
    (completed : List LoadOutcome)
    (h : List.Perm completed (submittedOutcomes cfg beh)) :
    List.Perm
      ((collectReport completed).successful ++
        (collectReport completed).failed.map Prod.fst)
      ((DataLoader.tasks cfg).map LoadTask.source_path) :=
  collectReport_paths_perm cfg beh completed h

theorem C2_witness :
    List.Perm
      ((collectReport
          [⟨"data/b.csv", false, "Empty or malformed CSV"⟩, ⟨"data/a.csv", true, ""⟩]).successful ++
        (collectReport
          [⟨"data/b.csv", false, "Empty or malformed CSV"⟩, ⟨"data/a.csv", true, ""⟩]).failed.map
          Prod.fst)
      ((DataLoader.tasks cfgC2).map LoadTask.source_path) :=
  C2_report_partitions_tasks cfgC2 behC2
    [⟨"data/b.csv", false, "Empty or malformed CSV"⟩, ⟨"data/a.csv", true, ""⟩] (by decide)

/-- Claim C6 (counterexample): when the `to_sql` exception raised on every
attempt carries an empty text (`str(e) == ""`, as for a bare
`Exception()`), the retries are exhausted and the returned outcome has
`succeeded = false` together with an EMPTY `error_message` — refuting
"error_message is empty iff succeeded" for arbitrary exception texts. -/
theorem C6_counterexample :
    (load_csv_to_postgres cfgC6 behC6 "data/f.csv" "f").outcome.succeeded = false ∧
      (load_csv_to_postgres cfgC6 behC6 "data/f.csv" "f").outcome.error_message = "" := by
  decide

/-- Claim C6 (amended): provided at least one attempt is configured
(`max_retries >= 1`) and every generic exception raised by an attempt
carries a nonempty message, the outcome's error_message is empty exactly
when the load succeeded. -/
theorem C6_message_empty_iff_success (cfg : Config) (beh : Nat → AttemptEnv)
    (fp tbl : String) (hm : 1 ≤ cfg.max_retries)
    (hne : ∀ k m, (attemptStep cfg (beh k)).1 = .raisedExc m → m ≠ "") :
    ((load_csv_to_postgres cfg beh fp tbl).outcome.error_message = "" ↔
      (load_csv_to_postgres cfg beh fp tbl).outcome.succeeded = true) := by
  have h := loadGo_msg_iff cfg beh fp hne cfg.max_retries 1 "" (Or.inr hm)
  simpa [load_csv_to_postgres] using h

theorem C6_witness :
    ((load_csv_to_postgres cfgC6w behC6w "data/g.csv" "g").outcome.error_message = "" ↔
      (load_csv_to_postgres cfgC6w behC6w "data/g.csv" "g").outcome.succeeded = true) :=
  C6_message_empty_iff_success cfgC6w behC6w "data/g.csv" "g" (by decide)
    (fun k m h => by simp [attemptStep, behC6w, cfgC6w, credsOk, truthy] at h; subst h; decide)

/-- Claim C7: per-file errors (parse, validation, exhausted transients) are
recovered locally into failed outcomes — the loop of
`load_csv_to_postgres` handles every modelled exception, so under every
external behaviour, including one where some or all files fail, the run
completes with exactly one report entry per submitted task: the two list
lengths sum to the number of configured files, and every task's source
path appears in one of the lists. -/
theorem C7_failures_isolated (cfg : Config) (beh : Nat → Nat → AttemptEnv)
    (completed : List LoadOutcome)
    (h : List.Perm completed (submittedOutcomes cfg beh)) :
    (collectReport completed).successful.length + (collectReport completed).failed.length
        = cfg.files_to_load.length ∧
      ∀ t ∈ DataLoader.tasks cfg,
        t.source_path ∈ (collectReport completed).successful ∨
          t.source_path ∈ (collectReport completed).failed.map Prod.fst := by
  have hp := collectReport_paths_perm cfg beh completed h
  constructor
  · have hl := hp.length_eq
    simpa [reportPaths, DataLoader.tasks] using hl
  · intro t ht
    have hmem : t.source_path ∈ (DataLoader.tasks cfg).map LoadTask.source_path :=
      List.mem_map_of_mem _ ht
    exact List.mem_append.1 (hp.mem_iff.2 hmem)

theorem C7_witness :
    (collectReport (submittedOutcomes cfgC7 behC7)).successful.length +
          (collectReport (submittedOutcomes cfgC7 behC7)).failed.length =
        cfgC7.files_to_load.length ∧
      ∀ t ∈ DataLoader.tasks cfgC7,
        t.source_path ∈ (collectReport (submittedOutcomes cfgC7 behC7)).successful ∨
          t.source_path ∈
            (collectReport (submittedOutcomes cfgC7 behC7)).failed.map Prod.fst :=
  C7_failures_isolated cfgC7 behC7 (submittedOutcomes cfgC7 behC7) (List.Perm.refl _)

/-- Claim C10 (counterexample): the claim's rule — destination table = "the
name up to the last dot" — predicts table "" for the configured file name
".csv", but the code uses `os.path.splitext`, which treats ".csv" as a
dotfile without extension and keeps the full name as the table. -/
theorem C10_counterexample :
    DataLoader.tasks
        ⟨some "h", some "u", some "p", some "d", "data", [".csv"], "replace", 4, 3, 2⟩ =
        [⟨"data/.csv", ".csv"⟩] ∧
      specStemUpToLastDot ".csv" = "" ∧ (".csv" : String) ≠ "" := by
  decide

/-- Claim C10 (amended): the orchestrator derives the source path with
`os.path.join(csv_directory, name)` and the destination table with
`os.path.splitext(name)[0]`: for file names whose stem (before the last
dot) contains a non-dot character, the table is the name up to the last
dot, so two such files differing only in their extension load into the
same table; names whose basename starts with dots only (e.g. ".csv") keep
the whole name. -/
theorem C10_table_derivation (cfg : Config) (stem ext1 ext2 : List Char)
    (hs : '/' ∉ stem) (hw : ∃ ch ∈ stem, ch ≠ '.')
    (h1 : '/' ∉ ext1) (h2 : '.' ∉ ext1) (h3 : '/' ∉ ext2) (h4 : '.' ∉ ext2)
    (hf : cfg.files_to_load = [⟨stem ++ '.' :: ext1⟩, ⟨stem ++ '.' :: ext2⟩]) :
    DataLoader.tasks cfg =
      [⟨osPathJoin cfg.csv_directory ⟨stem ++ '.' :: ext1⟩, ⟨stem⟩⟩,
        ⟨osPathJoin cfg.csv_directory ⟨stem ++ '.' :: ext2⟩, ⟨stem⟩⟩] := by
  simp only [DataLoader.tasks, hf, List.map_cons, List.map_nil, splitextRoot]
  rw [splitextRootL_stem_ext stem ext1 hs h1 h2 hw,
    splitextRootL_stem_ext stem ext2 hs h3 h4 hw]

theorem C10_witness :
    DataLoader.tasks cfgC10 = [⟨"data/ab.csv", "ab"⟩, ⟨"data/ab.txt", "ab"⟩] :=
  C10_table_derivation cfgC10 ['a', 'b'] ['c', 's', 'v'] ['t', 'x', 't']
    (by decide) ⟨'a', by decide, by decide⟩ (by decide) (by decide) (by decide) (by decide)
    (by decide)
